import Mathlib

set_option maxRecDepth 40000

/-!
Verification development for the MyTimeline metadata-enrichment pipeline
(`backend/app/services/image_scanner.py`, `exif_extractor.py`,
`image_analyzer.py` and the batch routes in `api/routes/processing.py`).

The Python code is shallowly embedded: numbers kept as exact rationals
(`Rat` stands in for Python floats; no claim here depends on binary
rounding), byte strings as already-decoded `String`s, the database session
as explicit state, and the filesystem / Ollama service as oracle functions
passed to each operation.  Fallible Python code returns `Except`/`Option`:
a raised-and-escaped exception is an `Except.error`, a caught one follows
the source's handler.
-/

-- The Batteries rational operations are `@[irreducible]`, which blocks the
-- elaborator (not the kernel) from evaluating closed rational arithmetic in
-- `rfl`/`decide` proofs about concrete pipeline runs; restore the default
-- reducibility for them.
set_option allowUnsafeReducibility true in
attribute [semireducible] Rat.add Rat.mul Rat.inv Rat.sub Rat.div Rat.neg

namespace MyTimeline

/-- Python float values.  JSON numbers are modelled exactly as rationals;
the nonstandard `Infinity`/`-Infinity`/`NaN` constants that Python's
`json.loads` also accepts are kept as separate constructors. -/
inductive PyNum where
  | fin (q : Rat)
  | inf
  | ninf
  | nan
deriving DecidableEq

/-- JSON values as produced by Python's `json.loads`. -/
inductive Json where
  | null
  | bool (b : Bool)
  | num (v : PyNum)
  | str (s : String)
  | arr (elems : List Json)
  | obj (fields : List (String × Json))

mutual

/-- Decidable equality for JSON values (the derive handler does not cover
this nested inductive). -/
def Json.decEq : (a b : Json) → Decidable (a = b)
  | .null, .null => isTrue rfl
  | .bool a, .bool b =>
    if h : a = b then isTrue (h ▸ rfl) else isFalse (fun he => h (Json.bool.inj he))
  | .num a, .num b =>
    if h : a = b then isTrue (h ▸ rfl) else isFalse (fun he => h (Json.num.inj he))
  | .str a, .str b =>
    if h : a = b then isTrue (h ▸ rfl) else isFalse (fun he => h (Json.str.inj he))
  | .arr xs, .arr ys =>
    match Json.decEqList xs ys with
    | isTrue h => isTrue (h ▸ rfl)
    | isFalse h => isFalse (fun he => h (Json.arr.inj he))
  | .obj xs, .obj ys =>
    match Json.decEqFields xs ys with
    | isTrue h => isTrue (h ▸ rfl)
    | isFalse h => isFalse (fun he => h (Json.obj.inj he))
  | .null, .bool _ => isFalse nofun
  | .null, .num _ => isFalse nofun
  | .null, .str _ => isFalse nofun
  | .null, .arr _ => isFalse nofun
  | .null, .obj _ => isFalse nofun
  | .bool _, .null => isFalse nofun
  | .bool _, .num _ => isFalse nofun
  | .bool _, .str _ => isFalse nofun
  | .bool _, .arr _ => isFalse nofun
  | .bool _, .obj _ => isFalse nofun
  | .num _, .null => isFalse nofun
  | .num _, .bool _ => isFalse nofun
  | .num _, .str _ => isFalse nofun
  | .num _, .arr _ => isFalse nofun
  | .num _, .obj _ => isFalse nofun
  | .str _, .null => isFalse nofun
  | .str _, .bool _ => isFalse nofun
  | .str _, .num _ => isFalse nofun
  | .str _, .arr _ => isFalse nofun
  | .str _, .obj _ => isFalse nofun
  | .arr _, .null => isFalse nofun
  | .arr _, .bool _ => isFalse nofun
  | .arr _, .num _ => isFalse nofun
  | .arr _, .str _ => isFalse nofun
  | .arr _, .obj _ => isFalse nofun
  | .obj _, .null => isFalse nofun
  | .obj _, .bool _ => isFalse nofun
  | .obj _, .num _ => isFalse nofun
  | .obj _, .str _ => isFalse nofun
  | .obj _, .arr _ => isFalse nofun

def Json.decEqList : (xs ys : List Json) → Decidable (xs = ys)
  | [], [] => isTrue rfl
  | [], _ :: _ => isFalse nofun
  | _ :: _, [] => isFalse nofun
  | x :: xs, y :: ys =>
    match Json.decEq x y with
    | isFalse h => isFalse (fun he => h (List.cons.inj he).1)
    | isTrue h1 =>
      match Json.decEqList xs ys with
      | isTrue h2 => isTrue (by rw [h1, h2])
      | isFalse h2 => isFalse (fun he => h2 (List.cons.inj he).2)

def Json.decEqFields : (xs ys : List (String × Json)) → Decidable (xs = ys)
  | [], [] => isTrue rfl
  | [], _ :: _ => isFalse nofun
  | _ :: _, [] => isFalse nofun
  | (k1, v1) :: xs, (k2, v2) :: ys =>
    if hk : k1 = k2 then
      match Json.decEq v1 v2 with
      | isFalse h => isFalse (fun he => h (Prod.mk.inj (List.cons.inj he).1).2)
      | isTrue hv =>
        match Json.decEqFields xs ys with
        | isTrue ht => isTrue (by rw [hk, hv, ht])
        | isFalse ht => isFalse (fun he => ht (List.cons.inj he).2)
    else isFalse (fun he => hk (Prod.mk.inj (List.cons.inj he).1).1)

end

instance : DecidableEq Json := Json.decEq

instance {ε α : Type} [DecidableEq ε] [DecidableEq α] : DecidableEq (Except ε α) := fun a b =>
  match a, b with
  | .ok x, .ok y =>
    if h : x = y then isTrue (h ▸ rfl) else isFalse (fun he => h (Except.ok.inj he))
  | .error x, .error y =>
    if h : x = y then isTrue (h ▸ rfl) else isFalse (fun he => h (Except.error.inj he))
  | .ok _, .error _ => isFalse nofun
  | .error _, .ok _ => isFalse nofun

/-- The two brace characters, written by code point so that they never
appear literally in the file. -/
def openBrace : Char := Char.ofNat 123

def closeBrace : Char := Char.ofNat 125

/-- JSON insignificant whitespace (RFC 8259: space, tab, LF, CR). -/
def isJsonWs (c : Char) : Bool :=
  c == ' ' || c == '\t' || c == '\n' || c == '\r'

def hexDigitVal (c : Char) : Option Nat :=
  if c.isDigit then some (c.toNat - 48)
  else if 97 ≤ c.toNat && c.toNat ≤ 102 then some (c.toNat - 87)
  else if 65 ≤ c.toNat && c.toNat ≤ 70 then some (c.toNat - 55)
  else none

/-- Body of a JSON string literal, after the opening quote.  Strict mode of
Python's decoder: raw control characters below 0x20 are rejected; the
standard escapes and `\uXXXX` are accepted (surrogate-pair combination is
not modelled; no claim touches it). -/
def parseStringBody : Nat → List Char → List Char → Option (String × List Char)
  | 0, _, _ => none
  | _ + 1, [], _ => none
  | fuel + 1, c :: rest, acc =>
    if c == '"' then some (String.mk acc.reverse, rest)
    else if c == '\\' then
      match rest with
      | [] => none
      | e :: rest2 =>
        if e == '"' then parseStringBody fuel rest2 ('"' :: acc)
        else if e == '\\' then parseStringBody fuel rest2 ('\\' :: acc)
        else if e == '/' then parseStringBody fuel rest2 ('/' :: acc)
        else if e == 'b' then parseStringBody fuel rest2 (Char.ofNat 8 :: acc)
        else if e == 'f' then parseStringBody fuel rest2 (Char.ofNat 12 :: acc)
        else if e == 'n' then parseStringBody fuel rest2 ('\n' :: acc)
        else if e == 'r' then parseStringBody fuel rest2 ('\r' :: acc)
        else if e == 't' then parseStringBody fuel rest2 ('\t' :: acc)
        else if e == 'u' then
          match rest2 with
          | h1 :: h2 :: h3 :: h4 :: rest3 =>
            match hexDigitVal h1, hexDigitVal h2, hexDigitVal h3, hexDigitVal h4 with
            | some a, some b, some c2, some d =>
              parseStringBody fuel rest3 (Char.ofNat (((a * 16 + b) * 16 + c2) * 16 + d) :: acc)
            | _, _, _, _ => none
          | _ => none
        else none
    else if c.toNat < 32 then none
    else parseStringBody fuel rest (c :: acc)

def digitsVal (ds : List Char) : Nat :=
  ds.foldl (fun n c => n * 10 + (c.toNat - 48)) 0

def takeDigits (cs : List Char) : List Char × List Char :=
  (cs.takeWhile Char.isDigit, cs.dropWhile Char.isDigit)

/-- A JSON number after an optional leading minus sign, following the
decoder's regular expression `(0|[1-9][0-9]*)(\.[0-9]+)?([eE][+-]?[0-9]+)?`:
a fraction or exponent part that does not fully match is left unconsumed
(the surrounding context then rejects it), exactly as the regex does. -/
def parseNumCore (cs : List Char) : Option (Rat × List Char) :=
  match cs with
  | [] => none
  | c :: _ =>
    if c.isDigit = false then none
    else
      let ip := if c == '0' then ([c], cs.drop 1) else takeDigits cs
      let fp :=
        match ip.2 with
        | '.' :: r =>
          match takeDigits r with
          | ([], _) => (([] : List Char), ip.2)
          | (ds, r2) => (ds, r2)
        | _ => (([] : List Char), ip.2)
      let ep :=
        match fp.2 with
        | e :: r =>
          if e == 'e' || e == 'E' then
            match r with
            | s :: r2 =>
              if s == '+' then
                match takeDigits r2 with
                | ([], _) => (false, ([] : List Char), fp.2)
                | (ds, r3) => (false, ds, r3)
              else if s == '-' then
                match takeDigits r2 with
                | ([], _) => (false, ([] : List Char), fp.2)
                | (ds, r3) => (true, ds, r3)
              else
                match takeDigits r with
                | ([], _) => (false, ([] : List Char), fp.2)
                | (ds, r3) => (false, ds, r3)
            | [] => (false, ([] : List Char), fp.2)
          else (false, ([] : List Char), fp.2)
        | [] => (false, ([] : List Char), fp.2)
      let mant : Rat := (digitsVal ip.1 : Rat) + (digitsVal fp.1 : Rat) / ((10 : Rat) ^ fp.1.length)
      let v : Rat :=
        if ep.1 then mant / ((10 : Rat) ^ digitsVal ep.2.1)
        else mant * ((10 : Rat) ^ digitsVal ep.2.1)
      some (v, ep.2.2)

def dropLit : List Char → List Char → Option (List Char)
  | [], rest => some rest
  | _ :: _, [] => none
  | p :: ps, c :: rest => if p == c then dropLit ps rest else none

/-- Scalar JSON tokens: the keyword constants (including Python's
`NaN`/`Infinity`/`-Infinity` extension) and numbers. -/
def parseScalar (cs : List Char) : Option (Json × List Char) :=
  match dropLit "true".toList cs with
  | some r => some (.bool true, r)
  | none =>
  match dropLit "false".toList cs with
  | some r => some (.bool false, r)
  | none =>
  match dropLit "null".toList cs with
  | some r => some (.null, r)
  | none =>
  match dropLit "NaN".toList cs with
  | some r => some (.num .nan, r)
  | none =>
  match dropLit "Infinity".toList cs with
  | some r => some (.num .inf, r)
  | none =>
  match dropLit "-Infinity".toList cs with
  | some r => some (.num .ninf, r)
  | none =>
  match cs with
  | '-' :: r => (parseNumCore r).map (fun p => (Json.num (.fin (-p.1)), p.2))
  | _ => (parseNumCore cs).map (fun p => (Json.num (.fin p.1), p.2))

mutual

/-- One JSON value, leading whitespace allowed.  `fuel` strictly decreases
on every nested call and each unit of fuel consumes at least one input
character, so `input length + 2` fuel always suffices. -/
def parseValue : Nat → List Char → Option (Json × List Char)
  | 0, _ => none
  | fuel + 1, cs0 =>
    let cs := cs0.dropWhile isJsonWs
    match cs with
    | [] => none
    | c :: rest =>
      if c == '"' then
        (parseStringBody fuel rest []).map (fun p => (Json.str p.1, p.2))
      else if c == openBrace then
        parseObjMembers fuel rest []
      else if c == '[' then
        parseArrElems fuel rest []
      else
        parseScalar cs

/-- Members of a JSON object, entered just after the opening brace or a
comma; `acc` holds the members read so far (duplicate keys are kept here,
lookup later takes the last, as a Python dict literal would). -/
def parseObjMembers : Nat → List Char → List (String × Json) → Option (Json × List Char)
  | 0, _, _ => none
  | fuel + 1, cs0, acc =>
    let cs := cs0.dropWhile isJsonWs
    match cs with
    | [] => none
    | c :: rest =>
      if c == closeBrace && acc.isEmpty then some (Json.obj acc, rest)
      else if c == '"' then
        match parseStringBody fuel rest [] with
        | none => none
        | some (k, r1) =>
          match r1.dropWhile isJsonWs with
          | ':' :: r2 =>
            match parseValue fuel r2 with
            | none => none
            | some (v, r3) =>
              match r3.dropWhile isJsonWs with
              | ',' :: r4 => parseObjMembers fuel r4 (acc ++ [(k, v)])
              | c2 :: r4 =>
                if c2 == closeBrace then some (Json.obj (acc ++ [(k, v)]), r4) else none
              | [] => none
          | _ => none
      else none

/-- Elements of a JSON array, entered just after the opening bracket or a
comma. -/
def parseArrElems : Nat → List Char → List Json → Option (Json × List Char)
  | 0, _, _ => none
  | fuel + 1, cs0, acc =>
    let cs := cs0.dropWhile isJsonWs
    match cs with
    | [] => none
    | c :: _ =>
      if c == ']' && acc.isEmpty then some (Json.arr acc, cs.drop 1)
      else
        match parseValue fuel cs with
        | none => none
        | some (v, r1) =>
          match r1.dropWhile isJsonWs with
          | ',' :: r2 => parseArrElems fuel r2 (acc ++ [v])
          | ']' :: r2 => some (Json.arr (acc ++ [v]), r2)
          | _ => none

end

/-- Python's `json.loads`: parse one value and require that only
whitespace follows; any failure is a `JSONDecodeError` (`none`). -/
def jsonDecode (cs : List Char) : Option Json :=
  match parseValue (cs.length + 2) cs with
  | some (v, rest) => if (rest.dropWhile isJsonWs).isEmpty then some v else none
  | none => none

/-- The whitespace set of Python `str.strip()` and `float()` (ASCII part). -/
def pyIsSpace (c : Char) : Bool :=
  c == ' ' || c == '\t' || c == '\n' || c == '\r' || c == Char.ofNat 11 || c == Char.ofNat 12

/-- Python `str.strip()`: drop leading and trailing whitespace. -/
def pyStrip (s : String) : String :=
  String.mk (((s.toList.dropWhile pyIsSpace).reverse.dropWhile pyIsSpace).reverse)

/-! ## Vision response parsing (`ImageAnalyzer._parse_response`) -/

/-- The span matched by `re.search` of an open brace, `.*` (greedy, with
`re.DOTALL`) and a close brace, as in `image_analyzer.py` line 139: the
leftmost possible start is the first open brace, and greedy backtracking
ends the match at the last close brace of the whole text; a match exists
exactly when some open brace precedes the last close brace. -/
def greedyBraceSpan (cs : List Char) : Option (List Char) :=
  match cs.findIdx? (fun c => c == openBrace), cs.reverse.findIdx? (fun c => c == closeBrace) with
  | some i, some jr =>
    let j := cs.length - 1 - jr
    if i < j then some ((cs.drop i).take (j - i + 1)) else none
  | _, _ => none

/-- Modelled from the spec: the span a NON-greedy outer match (an open
brace, minimal `.*?`, a close brace) would extract — from the first open
brace to the first close brace after it.  This is what the spec asserts
the parser uses; it exists only to be compared with `greedyBraceSpan`,
which is what the source actually computes. -/
def specNonGreedyBraceSpan (cs : List Char) : Option (List Char) :=
  match cs.findIdx? (fun c => c == openBrace) with
  | none => none
  | some i =>
    match (cs.drop (i + 1)).findIdx? (fun c => c == closeBrace) with
    | none => none
    | some k => some ((cs.drop i).take (k + 2))

/-- Python `dict.get` on the decoded object: duplicate keys collapse to
the last occurrence, as in a dict built by the JSON decoder. -/
def objGet (kvs : List (String × Json)) (k : String) : Option Json :=
  ((kvs.filter (fun p => p.1 == k)).getLast?).map (fun p => p.2)

/-- Python `float(x)` applied to a decoded JSON value.  `none` means the
call raises (`TypeError`/`ValueError`), which `_parse_response` does not
catch.  Strings are converted through the float grammar; numbers and
booleans convert; `null`, lists and objects raise. -/
def pyFloatOfString (s : String) : Option PyNum :=
  let cs := (s.toList.dropWhile pyIsSpace).reverse.dropWhile pyIsSpace |>.reverse
  let core : List Char → Option PyNum := fun body =>
    match dropLit "inf".toList body with
    | some [] => some .inf
    | _ =>
    match dropLit "infinity".toList body with
    | some [] => some .inf
    | _ =>
    match dropLit "nan".toList body with
    | some [] => some .nan
    | _ =>
      -- decimal form: digits with optional fraction and exponent;
      -- Python also accepts a leading dot, extra digit groups are rejected
      match parseNumCore body with
      | some (q, []) => some (.fin q)
      | _ =>
        match body with
        | '.' :: r =>
          match parseNumCore ('0' :: '.' :: r) with
          | some (q, []) => some (.fin q)
          | _ => none
        | _ => none
  match cs.map Char.toLower with
  | '-' :: body => (core body).map (fun v => match v with
      | .fin q => .fin (-q)
      | .inf => .ninf
      | .ninf => .inf
      | .nan => .nan)
  | '+' :: body => core body
  | body => core body

def floatOfJson : Json → Option PyNum
  | .num v => some v
  | .bool b => some (.fin (if b then 1 else 0))
  | .str s => pyFloatOfString s
  | _ => none

/-- The dictionary `_parse_response` returns: the five raw fields plus the
float-coerced confidence. -/
structure ParsedResponse where
  description : Json
  objects : Json
  people : Json
  scene_type : Json
  activities : Json
  confidence : PyNum
deriving DecidableEq

/-- The terminal fallback record of `_parse_response` (lines 159-166):
the whole raw text as description, unknown scene, empty lists,
confidence 0.3. -/
def fallbackResponse (response_text : String) : ParsedResponse :=
  ⟨.str response_text, .arr [], .arr [], .str "unknown", .arr [], .fin (3 / 10)⟩

/-- `ImageAnalyzer._parse_response` (lines 126-166).  The regex span is
decoded; a `JSONDecodeError` is caught and falls back, but a failing
`float(...)` on the confidence field raises out of the function
(`Except.error`), since only `JSONDecodeError` is caught. -/
def parse_response (response_text : String) : Except Unit ParsedResponse :=
  match greedyBraceSpan response_text.toList with
  | none => .ok (fallbackResponse response_text)
  | some span =>
    match jsonDecode span with
    | none => .ok (fallbackResponse response_text)
    | some (.obj kvs) =>
      match floatOfJson ((objGet kvs "confidence").getD (.num (.fin (1 / 2)))) with
      | none => .error ()
      | some c =>
        .ok ⟨(objGet kvs "description").getD (.str ""),
             (objGet kvs "objects").getD (.arr []),
             (objGet kvs "people").getD (.arr []),
             (objGet kvs "scene_type").getD (.str "unknown"),
             (objGet kvs "activities").getD (.arr []),
             c⟩
    | some _ =>
      -- a span always starts with an open brace, so a successful decode is
      -- an object; on any other value `.get` would raise AttributeError
      .error ()

/-! ## Tag derivation (`ImageAnalyzer._create_tags_from_analysis`) -/

structure TagRec where
  image_id : Nat
  tag_name : String
  tag_type : String
  confidence : PyNum
deriving DecidableEq

/-- Python truthiness of a decoded JSON value. -/
def Json.truthy : Json → Bool
  | .null => false
  | .bool b => b
  | .num (.fin q) => decide (q ≠ 0)
  | .num _ => true
  | .str s => s != ""
  | .arr xs => !xs.isEmpty
  | .obj kvs => !kvs.isEmpty

/-- Python `for x in v`: lists yield elements, strings yield one-character
strings, dicts yield their keys; other values raise `TypeError`. -/
def pyIter : Json → Except Unit (List Json)
  | .arr xs => .ok xs
  | .str s => .ok (s.toList.map (fun c => Json.str (String.mk [c])))
  | .obj kvs => .ok (kvs.map (fun p => Json.str p.1))
  | _ => .error ()

/-- `x.lower().strip()` (ASCII case folding). -/
def pyLowerStrip (s : String) : String :=
  pyStrip (String.mk (s.toList.map Char.toLower))

/-- One candidate entry of an object/person/activity loop: the source
keeps it only `if entry and isinstance(entry, str)` — truthy (non-empty)
BEFORE trimming — and then stores the lower-cased, trimmed text. -/
def tagOfEntry (image_id : Nat) (tag_type : String) (conf : PyNum) : Json → Option TagRec
  | .str s => if s == "" then none else some ⟨image_id, pyLowerStrip s, tag_type, conf⟩
  | _ => none

/-- The scene-type tag (lines 202-209): emitted when the raw value is
truthy; `.lower()` on a truthy non-string raises. -/
def sceneTags (image_id : Nat) (a : ParsedResponse) : Except Unit (List TagRec) :=
  if a.scene_type.truthy then
    match a.scene_type with
    | .str s => .ok [⟨image_id, pyLowerStrip s, "scene", a.confidence⟩]
    | _ => .error ()
  else .ok []

/-- `ImageAnalyzer._create_tags_from_analysis` (lines 168-221): object,
person, scene and activity tags in source order, every tag carrying the
parent confidence. -/
def create_tags_from_analysis (image_id : Nat) (a : ParsedResponse) : Except Unit (List TagRec) :=
  match pyIter a.objects with
  | .error e => .error e
  | .ok objs =>
    match pyIter a.people with
    | .error e => .error e
    | .ok ppl =>
      match sceneTags image_id a with
      | .error e => .error e
      | .ok scTags =>
        match pyIter a.activities with
        | .error e => .error e
        | .ok acts =>
          .ok (objs.filterMap (tagOfEntry image_id "object" a.confidence)
            ++ ppl.filterMap (tagOfEntry image_id "person" a.confidence)
            ++ scTags
            ++ acts.filterMap (tagOfEntry image_id "activity" a.confidence))

/-! ## EXIF decoding (`exif_extractor.py`)

A piexif value is an int, a rational pair, a triple of rational pairs
(GPS coordinates), or a byte string (modelled as its decoded text; claims
do not touch undecodable bytes).  Each IFD section of the piexif dict may
be absent, and a tag may be absent from its section. -/

inductive ExifVal where
  | tup2 (n d : Int)
  | tupGps (dPair mPair sPair : Int × Int)
  | num (q : Rat)
  | bytes (s : String)
deriving DecidableEq

structure ExifDict where
  zeroth : Option (List (Nat × ExifVal))
  exif : Option (List (Nat × ExifVal))
  gps : Option (List (Nat × ExifVal))

def lookupTag (sec : List (Nat × ExifVal)) (tag : Nat) : Option ExifVal :=
  (sec.find? (fun p => p.1 == tag)).map (fun p => p.2)

def lookupSec (sec : Option (List (Nat × ExifVal))) (tag : Nat) : Option ExifVal :=
  sec.bind (fun s => lookupTag s tag)

/-- Python `str` of an EXIF value, for the `return str(exposure)` branch.
An int pair renders as a Python tuple does. -/
def pyStrExifVal : ExifVal → String
  | .tup2 n d => "(" ++ toString n ++ ", " ++ toString d ++ ")"
  | .tupGps a b c =>
    "((" ++ toString a.1 ++ ", " ++ toString a.2 ++ "), (" ++ toString b.1 ++ ", "
      ++ toString b.2 ++ "), (" ++ toString c.1 ++ ", " ++ toString c.2 ++ "))"
  | .num q => toString q
  | .bytes s => "b'" ++ s ++ "'"

/-- `ExifExtractor._extract_shutter_speed` (lines 156-168).  A rational
pair with nonzero denominator renders as a fraction string; with a ZERO
denominator the `if` guard is skipped and control falls through to
`return str(exposure)`, producing the tuple text.  A GPS triple fails the
two-element unpack (ValueError, caught, `None`); any other value reaches
`str(exposure)`. -/
def extract_shutter_speed (d : ExifDict) : Option String :=
  match lookupSec d.exif 33434 with
  | none => none
  | some (.tup2 n den) =>
    if den ≠ 0 then some (toString n ++ "/" ++ toString den)
    else some (pyStrExifVal (.tup2 n den))
  | some (.tupGps _ _ _) => none
  | some v => some (pyStrExifVal v)

/-- `ExifExtractor._extract_aperture` (lines 144-154): a rational pair
divides (a zero denominator raises ZeroDivisionError, caught, `None`); a
scalar converts with `float()`; a byte string converts through the float
grammar when it parses finitely; a GPS triple raises in `float()` and is
caught. -/
def extract_aperture (d : ExifDict) : Option Rat :=
  match lookupSec d.exif 33437 with
  | some (.tup2 n den) => if den = 0 then none else some ((n : Rat) / (den : Rat))
  | some (.num q) => some q
  | some (.bytes s) =>
    match pyFloatOfString s with
    | some (.fin q) => some q
    | _ => none
  | _ => none

/-- `ExifExtractor._extract_focal_length` (lines 170-180), same shape as
the aperture extractor on tag FocalLength. -/
def extract_focal_length (d : ExifDict) : Option Rat :=
  match lookupSec d.exif 37386 with
  | some (.tup2 n den) => if den = 0 then none else some ((n : Rat) / (den : Rat))
  | some (.num q) => some q
  | some (.bytes s) =>
    match pyFloatOfString s with
    | some (.fin q) => some q
    | _ => none
  | _ => none

/-- Python `int(x)` on an EXIF value: ints pass through, floats truncate
toward zero, digit byte strings convert, tuples raise (caught, `None`). -/
def pyIntOfExifVal : ExifVal → Option Int
  | .num q => some (if q ≥ 0 then q.floor else q.ceil)
  | .bytes s =>
    let cs := (s.toList.dropWhile pyIsSpace).reverse.dropWhile pyIsSpace |>.reverse
    let digits : List Char → Option Int := fun body =>
      if body ≠ [] && body.all Char.isDigit then some (digitsVal body : Int) else none
    match cs with
    | '-' :: body => (digits body).map (fun n => -n)
    | '+' :: body => digits body
    | body => digits body
  | _ => none

/-- Byte-string field extractor (`.decode('utf-8').strip()`): camera make
(tag 271 of the 0th IFD) as the representative; non-bytes values raise
AttributeError, caught per field. -/
def extract_camera_make (d : ExifDict) : Option String :=
  match lookupSec d.zeroth 271 with
  | some (.bytes s) => some (pyStrip s)
  | _ => none

def extract_camera_model (d : ExifDict) : Option String :=
  match lookupSec d.zeroth 272 with
  | some (.bytes s) => some (pyStrip s)
  | _ => none

def extract_lens_model (d : ExifDict) : Option String :=
  match lookupSec d.exif 42036 with
  | some (.bytes s) => some (pyStrip s)
  | _ => none

def extract_iso (d : ExifDict) : Option Int :=
  (lookupSec d.exif 34855).bind pyIntOfExifVal

def extract_orientation (d : ExifDict) : Option Int :=
  (lookupSec d.zeroth 274).bind pyIntOfExifVal

def extract_width (d : ExifDict) : Option Int :=
  (lookupSec d.exif 40962).bind pyIntOfExifVal

def extract_height (d : ExifDict) : Option Int :=
  (lookupSec d.exif 40963).bind pyIntOfExifVal

/-- A `datetime` value as `strptime("%Y:%m:%d %H:%M:%S")` yields it. -/
structure PyDateTime where
  year : Nat
  month : Nat
  day : Nat
  hour : Nat
  minute : Nat
  second : Nat
deriving DecidableEq

def isLeapYear (y : Nat) : Bool :=
  (y % 4 == 0 && y % 100 != 0) || y % 400 == 0

def daysInMonth (y m : Nat) : Nat :=
  if m == 2 then (if isLeapYear y then 29 else 28)
  else if m == 4 || m == 6 || m == 9 || m == 11 then 30
  else 31

def dv2 (a b : Char) : Nat := (a.toNat - 48) * 10 + (b.toNat - 48)

/-- `datetime.strptime(s, "%Y:%m:%d %H:%M:%S")`: fixed shape, then the
`datetime` constructor's calendar validation; failure raises (caught by
the caller, yielding an unknown date). -/
def parseExifDatetime (s : String) : Option PyDateTime :=
  match s.toList with
  | [y1, y2, y3, y4, c1, mo1, mo2, c2, d1, d2, sp, h1, h2, c3, mi1, mi2, c4, s1, s2] =>
    if [y1, y2, y3, y4, mo1, mo2, d1, d2, h1, h2, mi1, mi2, s1, s2].all Char.isDigit
        && c1 == ':' && c2 == ':' && sp == ' ' && c3 == ':' && c4 == ':' then
      let y := digitsVal [y1, y2, y3, y4]
      let mo := dv2 mo1 mo2
      let da := dv2 d1 d2
      let h := dv2 h1 h2
      let mi := dv2 mi1 mi2
      let se := dv2 s1 s2
      if 1 ≤ y && 1 ≤ mo && mo ≤ 12 && 1 ≤ da && da ≤ daysInMonth y mo
          && h ≤ 23 && mi ≤ 59 && se ≤ 59 then
        some ⟨y, mo, da, h, mi, se⟩
      else none
    else none
  | _ => none

/-- `ExifExtractor._extract_date_taken` (lines 90-106): DateTimeOriginal
(Exif tag 36867) is tried first; only when that tag is ABSENT is DateTime
(0th tag 306) consulted — a present-but-unparsable first tag raises into
the handler and yields `None` without trying the fallback tag. -/
def extract_date_taken (d : ExifDict) : Option PyDateTime :=
  match lookupSec d.exif 36867 with
  | some (.bytes s) => parseExifDatetime s
  | some _ => none
  | none =>
    match lookupSec d.zeroth 306 with
    | some (.bytes s) => parseExifDatetime s
    | some _ => none
    | none => none

/-! ### GPS extraction -/

/-- `ExifExtractor._convert_gps_to_decimal` (lines 248-254):
degrees + minutes/60 + seconds/3600 from three rational pairs.  A zero
denominator raises ZeroDivisionError (`none`), which the caller's handler
turns into an absent GPS block. -/
def convert_gps_to_decimal (coords : (Int × Int) × (Int × Int) × (Int × Int)) : Option Rat :=
  if coords.1.2 = 0 ∨ coords.2.1.2 = 0 ∨ coords.2.2.2 = 0 then none
  else some ((coords.1.1 : Rat) / (coords.1.2 : Rat)
    + ((coords.2.1.1 : Rat) / (coords.2.1.2 : Rat)) / 60
    + ((coords.2.2.1 : Rat) / (coords.2.2.2 : Rat)) / 3600)

/-- One coordinate of `_extract_gps`: the magnitude and reference tags
must BOTH be present for the branch to run at all; inside it, a
malformed magnitude or reference raises (outer `none` = exception ending
the whole GPS extraction), and the reference equal to `negRef` negates.
The outer `Option` is the exception, the inner one distinguishes
"populated" from "tags absent, field skipped". -/
def gpsCoordStep (g : List (Nat × ExifVal)) (coordTag refTag : Nat) (negRef : String) :
    Option (Option Rat) :=
  match lookupTag g coordTag, lookupTag g refTag with
  | some cv, some rv =>
    match cv with
    | .tupGps a b c =>
      match convert_gps_to_decimal (a, b, c) with
      | none => none
      | some v =>
        match rv with
        | .bytes r => some (some (if r == negRef then -v else v))
        | _ => none
    | _ => none
  | _, _ => some none

/-- The altitude part of `_extract_gps` (lines 234-240): a rational pair
divides, a scalar passes through `float`, anything else raises. -/
def gpsAltStep (g : List (Nat × ExifVal)) : Option (Option Rat) :=
  match lookupTag g 6 with
  | none => some none
  | some (.tup2 n den) => if den = 0 then none else some (some ((n : Rat) / (den : Rat)))
  | some (.num q) => some (some q)
  | some _ => none

structure GpsOut where
  latitude : Option Rat
  longitude : Option Rat
  altitude : Option Rat

/-- `ExifExtractor._extract_gps` (lines 209-246).  GPS section absent, an
exception in any step, or an empty result dict all yield `none`; tags for
latitude are 2 (magnitude) and 1 (reference, `S` negates), for longitude
4 and 3 (`W` negates). -/
def extract_gps (d : ExifDict) : Option GpsOut :=
  match d.gps with
  | none => none
  | some g =>
    match gpsCoordStep g 2 1 "S", gpsCoordStep g 4 3 "W", gpsAltStep g with
    | some lat, some lon, some alt =>
      if lat = none ∧ lon = none ∧ alt = none then none
      else some ⟨lat, lon, alt⟩
    | _, _, _ => none

def gpsLatOf (o : Option GpsOut) : Option Rat := o.bind (fun r => r.latitude)

def gpsLonOf (o : Option GpsOut) : Option Rat := o.bind (fun r => r.longitude)

/-! ## Persistent state and the per-image EXIF operation -/

/-- A Python exception that escapes an operation: its type and message. -/
structure PyExc where
  excType : String
  msg : String
deriving DecidableEq

/-- A row of the `images` table (the columns the pipeline reads). -/
structure ImageRow where
  id : Nat
  file_path : String
  file_name : String
deriving DecidableEq

/-- `select(Image).where(Image.id == image_id)` followed by
`scalar_one_or_none()`. -/
def findImage (rows : List ImageRow) (image_id : Nat) : Option ImageRow :=
  rows.find? (fun r => r.id == image_id)

/-- A row of the `exif_data` table (serialization of `datetime` and float
columns to the store is elided; values are kept structured). -/
structure ExifRow where
  image_id : Nat
  date_taken : Option PyDateTime
  camera_make : Option String
  camera_model : Option String
  lens_model : Option String
  iso : Option Int
  aperture : Option Rat
  shutter_speed : Option String
  focal_length : Option Rat
  orientation : Option Int
  width : Option Int
  height : Option Int
  gps_latitude : Option Rat
  gps_longitude : Option Rat
  gps_altitude : Option Rat

/-- Database state seen by `ExifExtractor`: the image rows, the EXIF rows,
and a commit counter (each `session.commit()` bumps it). -/
structure ExifDB where
  images : List ImageRow
  exifs : List ExifRow
  commits : Nat

/-- The `ExifData(...)` construction of `extract_from_image` lines 45-58
plus the GPS fields set on lines 60-65. -/
def buildExifRow (image_id : Nat) (ed : ExifDict) : ExifRow :=
  let base : ExifRow :=
    { image_id := image_id
      date_taken := extract_date_taken ed
      camera_make := extract_camera_make ed
      camera_model := extract_camera_model ed
      lens_model := extract_lens_model ed
      iso := extract_iso ed
      aperture := extract_aperture ed
      shutter_speed := extract_shutter_speed ed
      focal_length := extract_focal_length ed
      orientation := extract_orientation ed
      width := extract_width ed
      height := extract_height ed
      gps_latitude := none
      gps_longitude := none
      gps_altitude := none }
  match extract_gps ed with
  | none => base
  | some gd =>
    { base with gps_latitude := gd.latitude, gps_longitude := gd.longitude,
                gps_altitude := gd.altitude }

/-- `ExifExtractor.extract_from_image` (lines 19-71).  The filesystem is
the oracle `readExif` (what `_extract_exif_dict` returns for a path:
`none` covers both a missing/unparsable EXIF block and a read error, as
in the source where all of these are caught and become `None`).  An
unknown image id raises ValueError; a `none` EXIF dict returns `None`
without touching the session; otherwise the row is added and committed. -/
def extract_from_image (db : ExifDB) (image_id : Nat)
    (readExif : String → Option ExifDict) : Except PyExc (ExifDB × Option ExifRow) :=
  match findImage db.images image_id with
  | none => .error ⟨"ValueError", "Image with ID " ++ toString image_id ++ " not found"⟩
  | some img =>
    match readExif img.file_path with
    | none => .ok (db, none)
    | some ed =>
      let row := buildExifRow image_id ed
      .ok ({ db with exifs := db.exifs ++ [row], commits := db.commits + 1 }, some row)

/-! ## Directory scanning (`image_scanner.py`) -/

/-- A filesystem path as the scanner sees it: `repr` is `str(p)` for the
path object produced by the directory walk (relative when the scan root
was given relative), `absRepr` is `str(p.absolute())`. -/
structure PyPath where
  repr : String
  absRepr : String
deriving DecidableEq

/-- The scan root's relevant filesystem facts. -/
structure RootInfo where
  repr : String
  existsOnDisk : Bool
  isDir : Bool

structure ScanResults where
  found : Nat
  new : Nat
  skipped : Nat
  errors : Nat
  error_files : List (String × String)
deriving DecidableEq

/-- Duplicate check done by the database on commit: the `images.file_path`
column is declared `unique=True` (`models/__init__.py` line 18), so the
commit raises IntegrityError when an inserted path collides with an
existing row or another inserted row. -/
def insertViolatesUnique (existing : List String) (added : List String) : Bool :=
  match added with
  | [] => false
  | a :: rest => a ∈ existing || a ∈ rest || insertViolatesUnique existing rest

/-- `ImageScanner.scan_folder` (lines 24-78).  `existingPaths` is the bulk
read `_get_existing_paths`; `files` the walk result `_find_images` (its
extension filter runs during the walk and is not re-modelled here);
`stat` the per-file `Path.stat()`, whose failure message lands in the
error list.  Precondition failures raise ValueError; per-file errors are
counted and do not abort; at the end the staged inserts are committed,
and the unique path constraint can make that commit raise.  On success
the results and the new table contents are returned. -/
def scan_folder (root : RootInfo) (existingPaths : List String)
    (files : List PyPath) (stat : PyPath → Except String Nat) :
    Except PyExc (ScanResults × List String) :=
  if root.existsOnDisk = false then
    .error ⟨"ValueError", "Folder does not exist: " ++ root.repr⟩
  else if root.isDir = false then
    .error ⟨"ValueError", "Path is not a directory: " ++ root.repr⟩
  else
    let init : ScanResults × List String :=
      (⟨files.length, 0, 0, 0, []⟩, [])
    let step : ScanResults × List String → PyPath → ScanResults × List String :=
      fun acc p =>
        if p.repr ∈ existingPaths then
          ({ acc.1 with skipped := acc.1.skipped + 1 }, acc.2)
        else
          match stat p with
          | .ok _ => ({ acc.1 with new := acc.1.new + 1 }, acc.2 ++ [p.absRepr])
          | .error e =>
            ({ acc.1 with errors := acc.1.errors + 1,
                          error_files := acc.1.error_files ++ [(p.repr, e)] }, acc.2)
    let out := files.foldl step init
    if insertViolatesUnique existingPaths out.2 then
      .error ⟨"IntegrityError", "UNIQUE constraint failed: images.file_path"⟩
    else .ok (out.1, existingPaths ++ out.2)

/-! ## Vision analysis and the batch route (`image_analyzer.py`,
`processing.py`) -/

/-- A row of the `ai_analysis` table (the `json.dumps` text encoding of
the list fields and the wall-clock `analyzed_at` are elided; values are
kept structured). -/
structure AnalysisRow where
  image_id : Nat
  description : Json
  detected_objects : Json
  detected_people : Json
  scene_type : Json
  confidence_score : PyNum
  raw_response : String

/-- Database state seen by `ImageAnalyzer`. -/
structure AnalyzerDB where
  images : List ImageRow
  analyses : List AnalysisRow
  tags : List TagRec
  commits : Nat

/-- `ImageAnalyzer._analyze_with_llava` (lines 80-124) given the outcome
of the Ollama chat call for the image (`Except.error` = the service call
raised: unreachable, timeout, ...).  Every exception — the service error
itself, or the uncaught `float` error escaping `_parse_response` — is
caught by the `except Exception` handler and becomes `None`; on success
the parsed dict and the verbatim raw response are returned. -/
def analyze_with_llava (svcResult : Except String String) : Option (ParsedResponse × String) :=
  match svcResult with
  | .error _ => none
  | .ok raw =>
    match parse_response raw with
    | .error _ => none
    | .ok pd => some (pd, raw)

/-- `ImageAnalyzer.analyze_image` (lines 23-78).  Unknown image id or
missing file raise ValueError (before the `try` block, so they escape);
a `None` from the LLaVA step returns `None`; otherwise the analysis row
and its tags are added and committed.  An exception inside the `try`
(e.g. from tag creation) is caught and yields `None`; the session's
staged-but-uncommitted adds of such an aborted attempt are modelled as
discarded. -/
def analyze_image (db : AnalyzerDB) (image_id : Nat)
    (fileExistsOnDisk : String → Bool) (svc : String → Except String String) :
    Except PyExc (AnalyzerDB × Option AnalysisRow) :=
  match findImage db.images image_id with
  | none => .error ⟨"ValueError", "Image with ID " ++ toString image_id ++ " not found"⟩
  | some img =>
    if fileExistsOnDisk img.file_path = false then
      .error ⟨"ValueError", "Image file not found: " ++ img.file_path⟩
    else
      match analyze_with_llava (svc img.file_path) with
      | none => .ok (db, none)
      | some (pd, raw) =>
        let row : AnalysisRow :=
          ⟨image_id, pd.description, pd.objects, pd.people, pd.scene_type, pd.confidence, raw⟩
        match create_tags_from_analysis image_id pd with
        | .error _ => .ok (db, none)
        | .ok tags =>
          .ok ({ db with analyses := db.analyses ++ [row], tags := db.tags ++ tags,
                         commits := db.commits + 1 }, some row)

/-- The response shape of the batch `analyze` endpoint. -/
structure BatchResponse where
  total_processed : Nat
  success : Nat
  errors : Nat
  error_details : List (Nat × String × String)
deriving DecidableEq

/-- The per-image loop of `analyze_images` (`processing.py` lines
136-146): a call that returns (with or without a result) counts as
success; a raised exception is caught, counted, and recorded. -/
def analyze_images_loop (db : AnalyzerDB) (images : List ImageRow)
    (fileExistsOnDisk : String → Bool) (svc : String → Except String String) :
    AnalyzerDB × Nat × Nat × List (Nat × String × String) :=
  images.foldl
    (fun st im =>
      match analyze_image st.1 im.id fileExistsOnDisk svc with
      | .ok (db2, _) => (db2, st.2.1 + 1, st.2.2.1, st.2.2.2)
      | .error e => (st.1, st.2.1, st.2.2.1 + 1, st.2.2.2 ++ [(im.id, im.file_name, e.msg)]))
    (db, 0, 0, [])

/-- `analyze_images` (`processing.py` lines 100-154): the fetched images
are processed one by one, and the summary truncates the error details to
the first 10.  The loop itself never lets a per-image exception escape. -/
def analyze_images_route (db : AnalyzerDB) (images : List ImageRow)
    (fileExistsOnDisk : String → Bool) (svc : String → Except String String) :
    BatchResponse :=
  if images.isEmpty then ⟨0, 0, 0, []⟩
  else
    let out := analyze_images_loop db images fileExistsOnDisk svc
    ⟨images.length, out.2.1, out.2.2.1, out.2.2.2.take 10⟩

/-! ## Concrete inputs used by the claim theorems -/

def visionExample : String :=
  "Sure! \x7b\"description\":\"a dog\",\"objects\":[\"dog\"],\"scene_type\":\"outdoor\",\"confidence\":0.9\x7d Hope that helps!"

def visionExampleSpan : String :=
  "\x7b\"description\":\"a dog\",\"objects\":[\"dog\"],\"scene_type\":\"outdoor\",\"confidence\":0.9\x7d"

def twoObjText : String := "a\x7b1\x7db\x7b2\x7dc"

def exifOnly (l : List (Nat × ExifVal)) : ExifDict := ⟨none, some l, none⟩

def gpsMagnitudesOnly : ExifDict :=
  ⟨none, none, some [(2, .tupGps (48, 1) (51, 1) (296, 10)), (4, .tupGps (2, 1) (20, 1) (0, 1))]⟩

def gpsDictRefN : ExifDict :=
  ⟨none, none, some [(1, .bytes "N"), (2, .tupGps (48, 1) (51, 1) (296, 10))]⟩

def gpsDictRefS : ExifDict :=
  ⟨none, none, some [(1, .bytes "S"), (2, .tupGps (48, 1) (51, 1) (296, 10))]⟩

def gpsDictRefE : ExifDict :=
  ⟨none, none, some [(3, .bytes "E"), (4, .tupGps (48, 1) (51, 1) (296, 10))]⟩

def gpsDictRefW : ExifDict :=
  ⟨none, none, some [(3, .bytes "W"), (4, .tupGps (48, 1) (51, 1) (296, 10))]⟩

def excTypeOf {α : Type} : Except PyExc α → Option String
  | .error e => some e.excType
  | .ok _ => none

def relativeScanFile : PyPath := ⟨"photos/a.jpg", "/base/photos/a.jpg"⟩

/-- All images of a batch are resolvable and their files exist. -/
def imagesReady (db : AnalyzerDB) (images : List ImageRow) (fe : String → Bool) : Bool :=
  images.all (fun im =>
    match findImage db.images im.id with
    | some img => fe img.file_path
    | none => false)

def batchImages : List ImageRow :=
  (List.range 100).map (fun i => ⟨i, "p" ++ toString i, "img" ++ toString i⟩)

def batchDB : AnalyzerDB := ⟨batchImages, [], [], 0⟩

/-- The service errors on the first three images and answers an empty
JSON object for the rest. -/
def batchSvc : String → Except String String :=
  fun p => if p = "p0" ∨ p = "p1" ∨ p = "p2" then .error "connection timeout"
    else .ok "\x7b\x7d"

/-! ## Claim theorems: response parsing, tag derivation, EXIF rationals -/



/-- C2 (amended claim): the response parser extracts the brace span with a
GREEDY outer match — from the first open brace to the LAST close brace of
the response — and structurally decodes only that span; on the spec's
example (prose before and after a single JSON object, no further braces in
the prose) that span is exactly the object's span and the parse yields
description "a dog", objects ["dog"], scene_type "outdoor", confidence
0.9, people and activities empty. -/
theorem c2_amended :
    parse_response visionExample =
      .ok ⟨.str "a dog", .arr [.str "dog"], .arr [], .str "outdoor", .arr [], .fin (9 / 10)⟩ ∧
    greedyBraceSpan visionExample.toList = some visionExampleSpan.toList := by
  exact ⟨by decide, by decide⟩


/-- C2 (counterexample): the claim says the span is located by a NON-greedy
outer match.  On the response `a{1}b{2}c` (braces written here in words)
the source's greedy regex takes the span from the first open brace to the
last close brace, while a non-greedy match would stop at the first close
brace — the two spans differ, so the parser does not use a non-greedy
match. -/
theorem c2_counterexample :
    greedyBraceSpan twoObjText.toList = some "\x7b1\x7db\x7b2\x7d".toList ∧
    specNonGreedyBraceSpan twoObjText.toList = some "\x7b1\x7d".toList ∧
    greedyBraceSpan twoObjText.toList ≠ specNonGreedyBraceSpan twoObjText.toList := by
  refine ⟨by decide, by decide, by decide⟩

/-- C4 (counterexample): the claim says the parser never itself throws for
any input string.  On a response whose JSON span decodes fine but carries
`"confidence": null`, `float(None)` raises TypeError, which the function's
handler (catching only JSONDecodeError) does not catch — `_parse_response`
itself throws. -/
theorem c4_counterexample :
    parse_response "\x7b\"confidence\": null\x7d" = .error () := by decide

/-- C4 (amended claim): for every response in which no JSON span is found
or structured decoding of the span fails, the parser returns the fallback
record — the entire raw response as description, scene_type "unknown",
empty objects/people/activities, confidence 0.3 — and this fallback path
always succeeds; the parser can only throw on a successfully decoded span
whose confidence value is not float-convertible. -/
theorem c4_amended (s : String) :
    (greedyBraceSpan s.toList = none →
      parse_response s = .ok ⟨.str s, .arr [], .arr [], .str "unknown", .arr [], .fin (3 / 10)⟩) ∧
    (∀ span, greedyBraceSpan s.toList = some span → jsonDecode span = none →
      parse_response s = .ok ⟨.str s, .arr [], .arr [], .str "unknown", .arr [], .fin (3 / 10)⟩) := by
  constructor
  · intro h
    unfold parse_response
    split
    · rfl
    · rename_i sp2 heq
      rw [h] at heq
      cases heq
  · intro sp h1 h2
    unfold parse_response
    split
    · rfl
    · rename_i sp2 heq
      rw [h1] at heq
      cases heq
      rw [h2]
      rfl

/-- C4 witness: the amended theorem applied to a concrete braceless
response. -/
theorem c4_amended_witness :
    parse_response "The image shows a dog." =
      .ok ⟨.str "The image shows a dog.", .arr [], .arr [], .str "unknown", .arr [], .fin (3 / 10)⟩ :=
  (c4_amended "The image shows a dog.").1 (by decide)

theorem filterMap_tagOfEntry_strings (image_id : Nat) (ty : String) (conf : PyNum) :
    ∀ l : List String,
      l.filterMap (fun s => tagOfEntry image_id ty conf (Json.str s)) =
      (l.filter (fun s => s != "")).map (fun s => ⟨image_id, pyLowerStrip s, ty, conf⟩) := by
  intro l
  induction l with
  | nil => rfl
  | cons a t ih =>
    by_cases h : a = ""
    · subst h
      simpa [tagOfEntry] using ih
    · simpa [tagOfEntry, h] using ih

/-- C8 (amended claim): tag derivation lower-cases and trims every kept
tag text and carries the parent confidence on each tag, but the drop test
is truthiness BEFORE trimming: strings empty before trimming (and
non-strings) are dropped, while a whitespace-only string is kept and
yields a tag with empty text.  For string-list fields the derived tags are
exactly one object tag per pre-trim-non-empty object string, likewise for
people and activities, plus one scene tag when scene_type is non-empty. -/
theorem c8_amended (image_id : Nat) (descr : Json) (objs ppl acts : List String)
    (scene : String) (conf : PyNum) :
    create_tags_from_analysis image_id
      ⟨descr, .arr (objs.map Json.str), .arr (ppl.map Json.str), .str scene,
        .arr (acts.map Json.str), conf⟩ =
    .ok ((objs.filter (fun s => s != "")).map
            (fun s => ⟨image_id, pyLowerStrip s, "object", conf⟩)
      ++ (ppl.filter (fun s => s != "")).map
            (fun s => ⟨image_id, pyLowerStrip s, "person", conf⟩)
      ++ (if scene != "" then [⟨image_id, pyLowerStrip scene, "scene", conf⟩] else [])
      ++ (acts.filter (fun s => s != "")).map
            (fun s => ⟨image_id, pyLowerStrip s, "activity", conf⟩)) := by
  unfold create_tags_from_analysis sceneTags
  simp only [pyIter, Json.truthy]
  by_cases h : scene = ""
  · subst h
    simp [List.filterMap_map, Function.comp_def, filterMap_tagOfEntry_strings]
  · simp [h, List.filterMap_map, Function.comp_def, filterMap_tagOfEntry_strings]

/-- C8 (counterexample): the claim says every string that is empty AFTER
trimming is dropped.  An objects list containing a single space yields a
tag with empty text rather than no tag. -/
theorem c8_counterexample :
    create_tags_from_analysis 7 ⟨.str "", .arr [.str " "], .arr [], .str "", .arr [], .fin (1 / 2)⟩ =
      .ok [⟨7, "", "object", .fin (1 / 2)⟩] ∧
    ([⟨7, "", "object", .fin (1 / 2)⟩] : List TagRec) ≠ [] := by
  exact ⟨by decide, by decide⟩


/-- C3 (counterexample): the claim says a zero-denominator exposure
rational leaves the shutter speed unknown (absent).  The source's zero
guard only skips the fraction string and falls through to
`return str(exposure)`, so (1, 0) yields the tuple text "(1, 0)" — a
present value, not an absent one. -/
theorem c3_counterexample :
    extract_shutter_speed (exifOnly [(33434, .tup2 1 0)]) = some "(1, 0)" ∧
    extract_shutter_speed (exifOnly [(33434, .tup2 1 0)]) ≠ none := by
  exact ⟨by decide, by decide⟩

/-- C3 (amended claim): an exposure rational with nonzero denominator
yields the display string "numerator/denominator"; with a ZERO denominator
the extractor returns the Python str of the tuple ("(1, 0)"), not unknown
and not a division error; the aperture rational (28, 10) converts by
division to 2.8. -/
theorem c3_amended (n den : Int) :
    (den ≠ 0 → extract_shutter_speed (exifOnly [(33434, .tup2 n den)]) =
      some (toString n ++ "/" ++ toString den)) ∧
    extract_shutter_speed (exifOnly [(33434, .tup2 1 0)]) = some "(1, 0)" ∧
    extract_aperture (exifOnly [(33437, .tup2 28 10)]) = some (14 / 5) := by
  refine ⟨fun h => ?_, by decide, by decide⟩
  simp [extract_shutter_speed, exifOnly, lookupSec, lookupTag, h]

/-- C3 witness: the amended theorem's fraction branch at (1, 500). -/
theorem c3_amended_witness :
    extract_shutter_speed (exifOnly [(33434, .tup2 1 500)]) = some "1/500" := by
  have h := (c3_amended 1 500).1 (by decide)
  simpa using h

/-! ## Claim theorems: GPS, scanning, EXIF persistence -/

/-- C6: the GPS latitude (longitude) field is populated only when both the
coordinate magnitude tag and its hemisphere reference tag are present in
the GPS IFD; if either is absent the field stays unknown, whatever else
the record holds. -/
theorem c6_gps_requires_both_tags (d : ExifDict) :
    ((lookupSec d.gps 1 = none ∨ lookupSec d.gps 2 = none) → gpsLatOf (extract_gps d) = none) ∧
    ((lookupSec d.gps 3 = none ∨ lookupSec d.gps 4 = none) → gpsLonOf (extract_gps d) = none) := by
  have hstep : ∀ (g : List (Nat × ExifVal)) (ct rt : Nat) (nr : String),
      (lookupTag g rt = none ∨ lookupTag g ct = none) → gpsCoordStep g ct rt nr = some none := by
    intro g ct rt nr h
    unfold gpsCoordStep
    rcases h with h | h
    · rw [h]
      cases lookupTag g ct <;> rfl
    · rw [h]
  cases hd : d.gps with
  | none => simp [extract_gps, hd, gpsLatOf, gpsLonOf]
  | some g =>
    constructor
    · intro h
      have h' : lookupTag g 1 = none ∨ lookupTag g 2 = none := by
        simpa [lookupSec, hd] using h
      have hs := hstep g 2 1 "S" h'
      unfold extract_gps
      rw [hd]
      dsimp only
      rw [hs]
      cases gpsCoordStep g 4 3 "W" with
      | none => rfl
      | some lon =>
        cases gpsAltStep g with
        | none => rfl
        | some alt =>
          dsimp only []
          split
          · rfl
          · rfl
    · intro h
      have h' : lookupTag g 3 = none ∨ lookupTag g 4 = none := by
        simpa [lookupSec, hd] using h
      have hs := hstep g 4 3 "W" h'
      unfold extract_gps
      rw [hd]
      dsimp only
      rw [hs]
      cases gpsCoordStep g 2 1 "S" with
      | none => rfl
      | some lat =>
        cases gpsAltStep g with
        | none => rfl
        | some alt =>
          dsimp only []
          split
          · rfl
          · simp [gpsLonOf]





/-- C6 witness: a GPS IFD carrying latitude and longitude magnitudes but
no reference tags yields unknown latitude and longitude. -/
theorem c6_gps_requires_both_tags_witness :
    gpsLatOf (extract_gps gpsMagnitudesOnly) = none ∧
    gpsLonOf (extract_gps gpsMagnitudesOnly) = none :=
  ⟨(c6_gps_requires_both_tags gpsMagnitudesOnly).1 (Or.inl (by decide)),
   (c6_gps_requires_both_tags gpsMagnitudesOnly).2 (Or.inl (by decide))⟩



/-- C7: GPS degrees/minutes/seconds rationals convert to decimal degrees
as degrees + minutes/60 + seconds/3600; the longitude step negates the
converted value exactly when the reference tag is W (for any GPS IFD
whose longitude magnitude and reference tags decode, covering
exif_extractor.py lines 227-232); with reference N, 48 deg 51 min 29.6
sec extracts as latitude 109931/2250 — within 0.000001 of 48.858222 —
and reference S negates it; the same angle as longitude extracts
positively under E and negated under W. -/
theorem c7_gps_decimal_conversion :
    (∀ dn dd mn md sn sd : Int, dd ≠ 0 → md ≠ 0 → sd ≠ 0 →
      convert_gps_to_decimal ((dn, dd), (mn, md), (sn, sd)) =
        some ((dn : Rat) / (dd : Rat) + ((mn : Rat) / (md : Rat)) / 60
          + ((sn : Rat) / (sd : Rat)) / 3600)) ∧
    (∀ (g : List (Nat × ExifVal)) (a b c : Int × Int) (r : String) (v : Rat),
      lookupTag g 4 = some (.tupGps a b c) → lookupTag g 3 = some (.bytes r) →
      convert_gps_to_decimal (a, b, c) = some v →
      gpsCoordStep g 4 3 "W" = some (some (if r == "W" then -v else v))) ∧
    gpsLatOf (extract_gps gpsDictRefN) = some (109931 / 2250) ∧
    gpsLatOf (extract_gps gpsDictRefS) = some (-(109931 / 2250)) ∧
    gpsLonOf (extract_gps gpsDictRefE) = some (109931 / 2250) ∧
    gpsLonOf (extract_gps gpsDictRefW) = some (-(109931 / 2250)) ∧
    |(109931 : Rat) / 2250 - 48858222 / 1000000| < 1 / 1000000 := by
  refine ⟨fun dn dd mn md sn sd h1 h2 h3 => ?_, ?_, by decide, by decide, by decide, by decide,
    by rw [abs_lt]; constructor <;> norm_num⟩
  · simp [convert_gps_to_decimal, h1, h2, h3]
  · intro g a b c r v h4 h3 hc
    unfold gpsCoordStep
    rw [h4, h3]
    dsimp only
    rw [hc]

/-- C7 witness: the conversion formula applied at (48,1), (51,1),
(296,10), and the longitude step with reference W negating that angle. -/
theorem c7_gps_decimal_conversion_witness :
    convert_gps_to_decimal ((48, 1), (51, 1), (296, 10)) =
      some ((48 : Rat) / (1 : Rat) + ((51 : Rat) / (1 : Rat)) / 60
        + ((296 : Rat) / (10 : Rat)) / 3600) ∧
    gpsCoordStep [(3, ExifVal.bytes "W"), (4, ExifVal.tupGps (48, 1) (51, 1) (296, 10))] 4 3 "W" =
      some (some (-(109931 / 2250 : Rat))) := by
  constructor
  · exact c7_gps_decimal_conversion.1 48 1 51 1 296 10 (by decide) (by decide) (by decide)
  · have h := c7_gps_decimal_conversion.2.1
      [(3, ExifVal.bytes "W"), (4, ExifVal.tupGps (48, 1) (51, 1) (296, 10))]
      (48, 1) (51, 1) (296, 10) "W" (109931 / 2250) (by decide) (by decide) (by decide)
    simpa using h

/-- C9 (amended claim): scan fails with ValueError "Folder does not
exist: ..." when the root does not exist, and with ValueError "Path is not
a directory: ..." when the root exists but is not a directory — two
distinct failure messages, both of the single Python exception type
ValueError. -/
theorem c9_amended (root : RootInfo) (existingPaths : List String)
    (files : List PyPath) (stat : PyPath → Except String Nat) :
    (root.existsOnDisk = false →
      scan_folder root existingPaths files stat =
        .error ⟨"ValueError", "Folder does not exist: " ++ root.repr⟩) ∧
    (root.existsOnDisk = true → root.isDir = false →
      scan_folder root existingPaths files stat =
        .error ⟨"ValueError", "Path is not a directory: " ++ root.repr⟩) := by
  constructor
  · intro h
    simp [scan_folder, h]
  · intro h1 h2
    simp [scan_folder, h1, h2]

/-- C9 witness: the amended theorem at a missing root and at a file
root. -/
theorem c9_amended_witness :
    scan_folder ⟨"/missing", false, true⟩ [] [] (fun _ => .ok 0) =
      .error ⟨"ValueError", "Folder does not exist: /missing"⟩ ∧
    scan_folder ⟨"/afile", true, false⟩ [] [] (fun _ => .ok 0) =
      .error ⟨"ValueError", "Path is not a directory: /afile"⟩ :=
  ⟨(c9_amended ⟨"/missing", false, true⟩ [] [] (fun _ => .ok 0)).1 rfl,
   (c9_amended ⟨"/afile", true, false⟩ [] [] (fun _ => .ok 0)).2 rfl rfl⟩


/-- C9 (counterexample): the claim says the two precondition violations
raise two DISTINCT error kinds (NotFoundError vs NotADirectoryError).  In
the source both raises are the same exception type, ValueError; only the
messages differ. -/
theorem c9_counterexample :
    scan_folder ⟨"/missing", false, false⟩ [] [] (fun _ => .ok 0) =
      .error ⟨"ValueError", "Folder does not exist: /missing"⟩ ∧
    scan_folder ⟨"/afile", true, false⟩ [] [] (fun _ => .ok 0) =
      .error ⟨"ValueError", "Path is not a directory: /afile"⟩ ∧
    excTypeOf (scan_folder ⟨"/missing", false, false⟩ [] [] (fun _ => .ok 0)) =
      excTypeOf (scan_folder ⟨"/afile", true, false⟩ [] [] (fun _ => .ok 0)) := by
  exact ⟨rfl, rfl, rfl⟩


/-- C5 (code bug, evaluation): scanning a root given as a RELATIVE path
("photos", containing photos/a.jpg, cwd /base) twice: the first run
inserts the absolute path; on the second run the dedup check compares the
walked path string "photos/a.jpg" against the stored absolute
"/base/photos/a.jpg", misses, re-inserts, and the commit violates the
unique images.file_path constraint — the second run raises IntegrityError
instead of returning new = 0, skipped = found. -/
theorem c5_relative_rescan_eval :
    scan_folder ⟨"photos", true, true⟩ [] [relativeScanFile] (fun _ => .ok 4096) =
      .ok (⟨1, 1, 0, 0, []⟩, ["/base/photos/a.jpg"]) ∧
    scan_folder ⟨"photos", true, true⟩ ["/base/photos/a.jpg"] [relativeScanFile]
        (fun _ => .ok 4096) =
      .error ⟨"IntegrityError", "UNIQUE constraint failed: images.file_path"⟩ ∧
    scan_folder ⟨"photos", true, true⟩ ["/base/photos/a.jpg"] [relativeScanFile]
        (fun _ => .ok 4096) ≠
      .ok (⟨1, 0, 1, 0, []⟩, ["/base/photos/a.jpg"]) := by
  exact ⟨rfl, rfl, by decide⟩

/-- C10: when the image is present but its file yields no parseable EXIF
dictionary, extract_from_image returns None and the database state is
returned unchanged — no ExifData row added, no commit performed. -/
theorem c10_no_exif_leaves_state_unchanged (db : ExifDB) (image_id : Nat)
    (img : ImageRow) (readExif : String → Option ExifDict)
    (hfind : findImage db.images image_id = some img)
    (hread : readExif img.file_path = none) :
    extract_from_image db image_id readExif = .ok (db, none) := by
  unfold extract_from_image
  rw [hfind]
  dsimp only
  rw [hread]

/-- C10 witness: the theorem at a one-image database whose file has no
EXIF block. -/
theorem c10_no_exif_leaves_state_unchanged_witness :
    extract_from_image ⟨[⟨1, "/p/a.png", "a.png"⟩], [], 0⟩ 1 (fun _ => none) =
      .ok (⟨[⟨1, "/p/a.png", "a.png"⟩], [], 0⟩, none) :=
  c10_no_exif_leaves_state_unchanged ⟨[⟨1, "/p/a.png", "a.png"⟩], [], 0⟩ 1
    ⟨1, "/p/a.png", "a.png"⟩ (fun _ => none) (by decide) rfl

/-! ## Claim theorems: the batch analyze pipeline -/


theorem analyze_image_ready_ok (db : AnalyzerDB) (i : Nat) (img : ImageRow)
    (fe : String → Bool) (svc : String → Except String String)
    (hfind : findImage db.images i = some img) (hfe : fe img.file_path = true) :
    ∃ db2 r, analyze_image db i fe svc = .ok (db2, r) ∧ db2.images = db.images := by
  unfold analyze_image
  rw [hfind]
  dsimp only
  rw [hfe]
  rw [if_neg (fun hcontra => Bool.noConfusion hcontra)]
  cases analyze_with_llava (svc img.file_path) with
  | none => exact ⟨db, none, rfl, rfl⟩
  | some pr =>
    cases pr with
    | mk pd raw =>
      dsimp only
      cases create_tags_from_analysis i pd with
      | error e => exact ⟨db, none, rfl, rfl⟩
      | ok tags =>
        refine ⟨_, _, rfl, rfl⟩

theorem analyze_fold_counts (fe : String → Bool) (svc : String → Except String String)
    (images : List ImageRow) :
    ∀ (dbOrig db : AnalyzerDB) (s e : Nat) (errs : List (Nat × String × String)),
      db.images = dbOrig.images → imagesReady dbOrig images fe = true →
      ∃ db2,
        images.foldl (fun st im =>
            match analyze_image st.1 im.id fe svc with
            | .ok (d2, _) => (d2, st.2.1 + 1, st.2.2.1, st.2.2.2)
            | .error e2 => (st.1, st.2.1, st.2.2.1 + 1, st.2.2.2 ++ [(im.id, im.file_name, e2.msg)]))
          (db, s, e, errs) =
        (db2, s + images.length, e, errs) := by
  induction images with
  | nil =>
    intro dbOrig db s e errs hinv hready
    exact ⟨db, by simp⟩
  | cons im rest ih =>
    intro dbOrig db s e errs hinv hready
    simp only [imagesReady, List.all_cons, Bool.and_eq_true] at hready
    obtain ⟨hhead, hrest⟩ := hready
    obtain ⟨img, hfind, hfe⟩ : ∃ img, findImage dbOrig.images im.id = some img ∧
        fe img.file_path = true := by
      cases hm : findImage dbOrig.images im.id with
      | none => rw [hm] at hhead; cases hhead
      | some img => rw [hm] at hhead; exact ⟨img, rfl, hhead⟩
    have hfind' : findImage db.images im.id = some img := by rw [hinv]; exact hfind
    obtain ⟨db2, r, heq, hinv2⟩ := analyze_image_ready_ok db im.id img fe svc hfind' hfe
    have hready' : imagesReady dbOrig rest fe = true := by
      simp [imagesReady, hrest]
    obtain ⟨db3, h3⟩ := ih dbOrig db2 (s + 1) e errs (by rw [hinv2, hinv]) hready'
    refine ⟨db3, ?_⟩
    simp only [List.foldl_cons, heq]
    rw [h3]
    simp only [List.length_cons]
    congr 2
    omega

/-- C1 (amended claim): a vision-service error for an image is caught
inside the analyzer and becomes a null result, not a raised error; the
batch loop counts every non-raising call as success, so whenever all batch
images exist in the database with existing files, a batch over n images
returns processed = n, success = n, errors = 0 and no error details —
REGARDLESS of how many service calls error — and raises nothing to the
caller. -/
theorem c1_amended (db : AnalyzerDB) (images : List ImageRow)
    (fe : String → Bool) (svc : String → Except String String)
    (h : imagesReady db images fe = true) :
    analyze_images_route db images fe svc = ⟨images.length, images.length, 0, []⟩ := by
  unfold analyze_images_route
  split
  · rename_i hemp
    have h0 : images = [] := List.isEmpty_iff.mp hemp
    subst h0
    rfl
  · rename_i hemp
    unfold analyze_images_loop
    obtain ⟨db2, hfold⟩ := analyze_fold_counts fe svc images db db 0 0 [] rfl h
    rw [hfold]
    simp





/-- C1 witness: the amended theorem on the concrete 100-image batch in
which the service errors on three images. -/
theorem c1_amended_witness :
    analyze_images_route batchDB batchImages (fun _ => true) batchSvc =
      ⟨batchImages.length, batchImages.length, 0, []⟩ :=
  c1_amended batchDB batchImages (fun _ => true) batchSvc (by decide)

/-- C1 (counterexample): the claim says a service error propagates as a
hard per-image error and a 100-image batch with 3 service errors reports
success = 97, errors = 3.  On that concrete batch the per-image analyze
returns ok-None for an erroring service call, and the batch reports
processed = 100, success = 100, errors = 0. -/
theorem c1_counterexample :
    analyze_image batchDB 0 (fun _ => true) batchSvc = .ok (batchDB, none) ∧
    analyze_images_route batchDB batchImages (fun _ => true) batchSvc = ⟨100, 100, 0, []⟩ ∧
    ¬((analyze_images_route batchDB batchImages (fun _ => true) batchSvc).success = 97 ∧
      (analyze_images_route batchDB batchImages (fun _ => true) batchSvc).errors = 3) := by
  have h : analyze_images_route batchDB batchImages (fun _ => true) batchSvc =
      ⟨100, 100, 0, []⟩ := by
    unfold analyze_images_route
    split
    · rename_i hemp
      exact absurd (List.isEmpty_iff.mp hemp) (by decide)
    · unfold analyze_images_loop
      obtain ⟨db2, hfold⟩ := analyze_fold_counts (fun _ => true) batchSvc batchImages
        batchDB batchDB 0 0 [] rfl (by decide)
      rw [hfold]
      simp [batchImages]
  refine ⟨rfl, h, ?_⟩
  rw [h]
  decide

end MyTimeline
